import Mathlib

/-!
Verification development for the ethereum-browser-sdk client library
(library/source/client.ts): a shallow embedding of the message-channel
protocol engine — the generic envelope-filtering Channel base class, the
HandshakeChannel provider directory, and the HotOstrichChannel
request/response correlation engine — together with theorems about the
claims of the specification.

Modelling conventions:
- Structured-clonable JS values (message payloads) are modelled by the
  inductive type `Value`; `JSON.stringify` is modelled by `Value.stringify`.
- A JS `Error` is modelled by `ErrorV` (its message string); a thrown JS
  value is modelled by `Thrown` (an `Error`, a string, or any other value).
- Exceptions are modelled with `Except Thrown`; calls to caller-supplied
  handlers and outgoing bus publications are recorded as `Effect`s.
- `window.postMessage` events are modelled by `EventData`: either a value
  that is not envelope-shaped, or an `ethereum` envelope.
-/

set_option autoImplicit false

/-- Structured-clonable JS value: the payloads carried by protocol messages.
`bytes` models a `Uint8Array` (e.g. an Ethereum address). -/
inductive Value where
  | null
  | bool (b : Bool)
  | num (n : Int)
  | str (s : String)
  | bytes (bs : List Nat)
  | arr (items : List Value)
  | obj (fields : List (String × Value))


/-- Serialization of a Uint8Array as JSON.stringify does: an object keyed by
indices; helper carrying the next index. -/
def Value.stringifyBytes : Nat → List Nat → String
  | _, [] => ""
  | i, [b] => "\"" ++ toString i ++ "\":" ++ toString b
  | i, b :: rest => "\"" ++ toString i ++ "\":" ++ toString b ++ "," ++ Value.stringifyBytes (i + 1) rest

mutual

/-- Model of JSON.stringify on structured values (string escaping elided:
the model's strings stand for already-escaped text). -/
def Value.stringify : Value → String
  | .null => "null"
  | .bool b => cond b "true" "false"
  | .num n => toString n
  | .str s => "\"" ++ s ++ "\""
  | .bytes bs => "\x7b" ++ Value.stringifyBytes 0 bs ++ "\x7d"
  | .arr items => "[" ++ Value.stringifyList items ++ "]"
  | .obj fields => "\x7b" ++ Value.stringifyFields fields ++ "\x7d"

/-- Comma-separated serialization of array elements. -/
def Value.stringifyList : List Value → String
  | [] => ""
  | [v] => Value.stringify v
  | v :: rest => Value.stringify v ++ "," ++ Value.stringifyList rest

/-- Comma-separated serialization of object fields. -/
def Value.stringifyFields : List (String × Value) → String
  | [] => ""
  | [(k, v)] => "\"" ++ k ++ "\":" ++ Value.stringify v
  | (k, v) :: rest => "\"" ++ k ++ "\":" ++ Value.stringify v ++ "," ++ Value.stringifyFields rest

end

/-- Look up a string-valued field of an object value. -/
def Value.getStr? : Value → String → Option String
  | .obj fields, k =>
    match fields.find? (fun f => f.1 == k) with
    | some (_, .str s) => some s
    | _ => none
  | _, _ => none

/-- Look up a field of an object value, `Value.null` when absent (modelling
JS `undefined` flowing out of a missing property). -/
def Value.getField : Value → String → Value
  | .obj fields, k =>
    match fields.find? (fun f => f.1 == k) with
    | some (_, v) => v
    | none => .null
  | _, _ => .null

/-- Model of a JS `Error` value: its message. -/
structure ErrorV where
  message : String


/-- Model of a thrown JS value: an `Error` instance, a string, or any other
value (the three cases distinguished by client.ts lines 24-30). -/
inductive Thrown where
  | err (e : ErrorV)
  | str (s : String)
  | other (v : Value)


/-- Normalization performed by the catch block of `Channel.onMessage`
(client.ts lines 23-31): an `Error` is passed through, a thrown string
becomes `new Error(string)`, anything else becomes
`new Error(JSON.stringify(value))`. -/
def normalizeThrown : Thrown → ErrorV
  | .err e => e
  | .str s => ⟨s⟩
  | .other v => ⟨Value.stringify v⟩

/-- Wire message union (shared.ts `Message`), discriminated by `type`:
broadcast, request, response, notification. -/
inductive Msg where
  | broadcast (kind : String) (payload : Value)
  | request (kind : String) (correlationId : String) (payload : Value)
  | response (kind : String) (correlationId : String) (success : Bool) (payload : Value)
  | notification (kind : String) (payload : Value)


/-- The envelope placed on the bus under the `ethereum` key: `channel`,
`kind`, and the protocol `message`. -/
structure MessageEnvelope where
  channel : String
  kind : String
  message : Msg


/-- Data of a `message` event delivered by the bus, partitioned into the
classes that lines 16-20 of client.ts distinguish under JS evaluation
semantics (`typeof null === 'object'` makes null pass the object tests):
`nullData` is `data === null`; `nonObjectData` is data of non-object type
(number, string, boolean, undefined, ...); `objWithoutEthereum` is an
object with no `ethereum` key; `nonObjectEthereum` has an `ethereum` field
of non-object type; `nullEthereum` has `ethereum === null`;
`envelopeNullMessage` is an envelope object whose `message` field is null
or undefined (missing); `envelope` is a well-formed envelope. An envelope
object with a missing or non-string `channel`/`kind` behaves exactly like
one whose channel/kind differs from every channel name, so it is
represented by `envelope` with a mismatching string. -/
inductive EventData where
  | nullData
  | nonObjectData (raw : Value)
  | objWithoutEthereum (raw : Value)
  | nonObjectEthereum (raw : Value)
  | nullEthereum
  | envelopeNullMessage (channel : String) (kind : String)
  | envelope (env : MessageEnvelope)


/-- Filter of client.ts line 198: a provider-originated message has type
`notification` or `response`. -/
def isProviderMessage : Msg → Bool
  | .notification _ _ => true
  | .response _ _ _ _ => true
  | _ => false

/-- Modelled from JS semantics: the TypeError raised by evaluating
`'ethereum' in event.data` when `event.data` is null (the message text is
engine-specific; only that it is an Error instance matters). -/
def typeErrorInNull : Thrown :=
  .err ⟨"TypeError: cannot use the in operator to search for ethereum in null"⟩

/-- Modelled from JS semantics: the TypeError raised by reading `.channel`
of a null `ethereum` field (client.ts line 17). -/
def typeErrorChannelOfNull : Thrown :=
  .err ⟨"TypeError: cannot read channel of null"⟩

/-- Modelled from JS semantics: the TypeError raised by reading `.type` of a
null or undefined `message` field (client.ts line 198 via line 20). -/
def typeErrorTypeOfNull : Thrown :=
  .err ⟨"TypeError: cannot read type of null"⟩

/-- Filter of client.ts line 197 with JS evaluation semantics:
`typeof event.data === 'object'` is true for objects AND for null, so
`'ethereum' in event.data` THROWS a TypeError when the data is null;
`typeof event.data.ethereum === 'object'` is likewise true when the
`ethereum` field is null, so a null `ethereum` passes the predicate. -/
def isEthereumMessageEvent : EventData → Except Thrown Bool
  | .nullData => .error typeErrorInNull
  | .nonObjectData _ => .ok false
  | .objWithoutEthereum _ => .ok false
  | .nonObjectEthereum _ => .ok false
  | .nullEthereum => .ok true
  | .envelopeNullMessage _ _ => .ok true
  | .envelope _ => .ok true

/-- Protocol identity supplied by a concrete Channel subclass:
`providerChannelName`, `clientChannelName` and the protocol `kind`
(client.ts lines 52-54). -/
structure ChannelConfig where
  providerChannelName : String
  clientChannelName : String
  kind : String


/-- Observable calls made by the engine: bus publications and invocations of
the caller-supplied handler callbacks. -/
inductive Effect where
  | send (env : MessageEnvelope)
  | onErrorCall (e : ErrorV)
  | onProviderAnnounced (payload : Value)
  | onSignerAddressChanged (address : Value)


/-- Inbound filter steps of `Channel.onMessage` (client.ts lines 16-20),
with the exceptions JS evaluation raises: line 16 returns silently when
`isEthereumMessageEvent` is false but propagates its TypeError on null
data; line 17 reads `.channel` of the `ethereum` field — a TypeError when
that field is null (which passed the line-16 predicate) — and returns
silently on a channel mismatch; line 19 returns silently on a kind
mismatch; line 20 reads `message.type` — a TypeError when the message is
null/undefined — and returns silently for client-originated types. The
result is `.error` for a thrown TypeError, `.ok none` for a silent return,
and `.ok (some m)` for a message handed to the subclass handler. The
catch-all arm covers the constructors on which `isEthereumMessageEvent` is
`.ok false`, so it is never reached with `.ok true`. -/
def Channel.filterEvent (cfg : ChannelConfig) (event : EventData) :
    Except Thrown (Option Msg) :=
  match isEthereumMessageEvent event with
  | .error t => .error t
  | .ok false => .ok none
  | .ok true =>
    match event with
    | .nullEthereum => .error typeErrorChannelOfNull
    | .envelopeNullMessage channel kind =>
      if channel != cfg.providerChannelName then .ok none
      else if kind != cfg.kind then .ok none
      else .error typeErrorTypeOfNull
    | .envelope env =>
      if env.channel != cfg.providerChannelName then .ok none
      else if env.kind != cfg.kind then .ok none
      else if isProviderMessage env.message then .ok (some env.message)
      else .ok none
    | _ => .ok none

/-- Listener body of client.ts lines 14-32: run the filter steps; dispatch a
surviving message to the subclass `onProviderMessage`; catch any exception —
whether raised by the filter steps themselves or by the handler — normalize
it and hand it to the caller-supplied `onError` (recorded as an
`Effect.onErrorCall`). The catch block itself is not guarded: an exception
raised by `onError` propagates out of the listener (the `.error` result). -/
def Channel.onMessage {σ : Type} (cfg : ChannelConfig)
    (onProviderMessage : Msg → σ → Except Thrown (σ × List Effect))
    (onError : ErrorV → Except Thrown Unit)
    (s : σ) (event : EventData) : Except Thrown (σ × List Effect) :=
  match Channel.filterEvent cfg event with
  | .error t =>
    match onError (normalizeThrown t) with
    | .ok _ => .ok (s, [.onErrorCall (normalizeThrown t)])
    | .error t2 => .error t2
  | .ok none => .ok (s, [])
  | .ok (some m) =>
    match onProviderMessage m s with
    | .ok r => .ok r
    | .error t =>
      match onError (normalizeThrown t) with
      | .ok _ => .ok (s, [.onErrorCall (normalizeThrown t)])
      | .error t2 => .error t2

/-- Envelope built by `Channel.send` (client.ts lines 34-46): the outgoing
message wrapped with the subclass's `clientChannelName` and `kind`. The
double `postMessage` (to the parent window and to the window itself) is
modelled as a single bus publication. -/
def Channel.mkSendEnvelope (cfg : ChannelConfig) (message : Msg) : MessageEnvelope :=
  { channel := cfg.clientChannelName, kind := cfg.kind, message := message }

/-- Channel instance as registered on the window: whether its `message`
listener is currently registered, plus the subclass state. -/
structure ChannelInstance (σ : Type) where
  listenerRegistered : Bool
  state : σ


/-- Shutdown of client.ts lines 10-12: deregister the listener
(`removeEventListener`); nothing else is touched. -/
def Channel.shutdown {σ : Type} (c : ChannelInstance σ) : ChannelInstance σ :=
  { c with listenerRegistered := false }

/-- Delivery of one bus event to a channel instance: the listener body runs
only while the listener is registered; after `shutdown` the event is not
dispatched at all. -/
def Channel.deliver {σ : Type} (cfg : ChannelConfig)
    (onProviderMessage : Msg → σ → Except Thrown (σ × List Effect))
    (onError : ErrorV → Except Thrown Unit)
    (c : ChannelInstance σ) (event : EventData) :
    Except Thrown (ChannelInstance σ × List Effect) :=
  if c.listenerRegistered then
    (Channel.onMessage cfg onProviderMessage onError c.state event).map
      (fun r => ({ c with state := r.1 }, r.2))
  else .ok (c, [])

/-- Modelled from the spec: `assertNever` (utils.ts, not under src/) marks a
closed-vocabulary violation; per spec sections 4.2 and 7(e) it is an
invariant failure that throws rather than silently returning. -/
def assertNever (description : String) : Thrown :=
  .err ⟨"Unreachable code reached: " ++ description⟩

/-- Modelled from the spec: the fixed, well-known provider-to-client
handshake channel name (shared.ts `Handshake.PROVIDER_CHANNEL_NAME`, not
under src/); only its distinctness from the client-direction name matters. -/
def Handshake.providerChannelName : String := "HandshakeProvider"

/-- Modelled from the spec: the fixed, well-known client-to-provider
handshake channel name (shared.ts `Handshake.CLIENT_CHANNEL_NAME`). -/
def Handshake.clientChannelName : String := "HandshakeClient"

/-- Modelled from the spec: the fixed handshake protocol kind discriminator
(shared.ts `Handshake.KIND`). -/
def Handshake.kind : String := "handshake"

/-- Channel identity of `HandshakeChannel` (client.ts lines 75-77). -/
def HandshakeChannel.config : ChannelConfig :=
  { providerChannelName := Handshake.providerChannelName
    clientChannelName := Handshake.clientChannelName
    kind := Handshake.kind }

/-- State of a `HandshakeChannel`: `knownProviders`, a JS `Record` from
provider id to the last announcement payload (client.ts line 72), modelled
as an insertion-ordered association list. -/
def HandshakeState : Type := List (String × Value)

/-- JS `Record` assignment `r[k] = v`: overwrite the value of an existing
key in place, otherwise append the new key at the end. -/
def Record.set : List (String × Value) → String → Value → List (String × Value)
  | [], k, v => [(k, v)]
  | (k', v') :: rest, k, v =>
    if k' == k then (k, v) :: rest else (k', v') :: Record.set rest k v

/-- JS `Record` lookup `r[k]`. -/
def Record.get? : List (String × Value) → String → Option Value
  | [], _ => none
  | (k', v') :: rest, k => if k' == k then some v' else Record.get? rest k

/-- Broadcast message built by `HandshakeChannel.announceClient`
(client.ts lines 100-106): kind `client_announcement`, empty payload. -/
def HandshakeChannel.announceClientMessage : Msg :=
  .broadcast "client_announcement" (.obj [])

/-- Effects of `announceClient`: send the client-announcement broadcast
wrapped in the handshake client envelope. The state is untouched. -/
def HandshakeChannel.announceClient : List Effect :=
  [.send (Channel.mkSendEnvelope HandshakeChannel.config HandshakeChannel.announceClientMessage)]

/-- Construction of a `HandshakeChannel` (client.ts lines 63-66): register
the listener, start with an empty provider directory, and immediately
announce the client. -/
def HandshakeChannel.construct : ChannelInstance HandshakeState × List Effect :=
  (⟨true, ([] : HandshakeState)⟩, HandshakeChannel.announceClient)

/-- Method `reRequestProviders` (client.ts lines 68-70): re-send the same
client announcement; the state (in particular `knownProviders`) is not
touched. -/
def HandshakeChannel.reRequestProviders (s : HandshakeState) :
    HandshakeState × List Effect :=
  (s, HandshakeChannel.announceClient)

/-- Handler `onProviderAnnouncement` (client.ts lines 95-98): store the
announcement in `knownProviders` under its `provider_id` (overwriting any
previous entry for that id) and invoke the caller-supplied
`onProviderAnnounced` callback. A missing `provider_id` property keys the
entry under the string "undefined", as JS property assignment would. -/
def HandshakeChannel.onProviderAnnouncement (s : HandshakeState) (payload : Value) :
    HandshakeState × List Effect :=
  let pid := (payload.getStr? "provider_id").getD "undefined"
  (Record.set s pid payload, [.onProviderAnnounced payload])

/-- Handler `onProviderMessage`/`onNotification` of `HandshakeChannel`
(client.ts lines 79-93): only `notification` messages of kind
`provider_announcement` are handled; every other type or kind reaches an
`assertNever` and throws. -/
def HandshakeChannel.onProviderMessage (m : Msg) (s : HandshakeState) :
    Except Thrown (HandshakeState × List Effect) :=
  match m with
  | .notification k payload =>
    if k == "provider_announcement" then
      .ok (HandshakeChannel.onProviderAnnouncement s payload)
    else .error (assertNever "notification.kind")
  | _ => .error (assertNever "message.type")

/-- Delivery of one bus event to a `HandshakeChannel` instance. -/
def HandshakeChannel.deliver (onError : ErrorV → Except Thrown Unit)
    (c : ChannelInstance HandshakeState) (event : EventData) :
    Except Thrown (ChannelInstance HandshakeState × List Effect) :=
  Channel.deliver HandshakeChannel.config HandshakeChannel.onProviderMessage onError c event

/-- Modelled from the spec: the fixed stem of HotOstrich provider-to-client
channel names (shared.ts `HotOstrich.PROVIDER_CHANNEL_PREFIX`, not under
src/): the provider id is appended to it (client.ts line 154). -/
def HotOstrich.providerChannelStem : String := "HotOstrichProvider:"

/-- Modelled from the spec: the fixed stem of HotOstrich client-to-provider
channel names (shared.ts `HotOstrich.CLIENT_CHANNEL_PREFIX`). -/
def HotOstrich.clientChannelStem : String := "HotOstrichClient:"

/-- Modelled from the spec: the HotOstrich protocol kind discriminator
(shared.ts `HotOstrich.KIND`). -/
def HotOstrich.kind : String := "HotOstrich"

/-- Channel identity of a `HotOstrichChannel` for one provider id
(client.ts lines 154-156): the provider id is baked into both
direction-qualified channel names. -/
def HotOstrichChannel.config (providerId : String) : ChannelConfig :=
  { providerChannelName := HotOstrich.providerChannelStem ++ providerId
    clientChannelName := HotOstrich.clientChannelStem ++ providerId
    kind := HotOstrich.kind }

/-- Modelled from the spec: the Future (future.ts, not under src/) is a
single-assignment result holder — unsettled until `resolve` or `reject` is
called, which may happen at most once; a second settlement attempt is an
invariant violation (spec section 4.4) and does not change the first
settlement. -/
inductive FutureState where
  | unsettled
  | resolved (payload : Value)
  | rejected (e : ErrorV)

/-- Settlement of a future in the future store (futures are identified by
their creation index); only an unsettled future changes state. -/
def settleFuture (futures : List FutureState) (fid : Nat) (st : FutureState) :
    List FutureState :=
  match futures[fid]? with
  | some .unsettled => futures.set fid st
  | _ => futures

/-- Resolve the future `fid` with a success payload. -/
def Future.resolve (futures : List FutureState) (fid : Nat) (payload : Value) :
    List FutureState :=
  settleFuture futures fid (.resolved payload)

/-- Reject the future `fid` with an error. -/
def Future.reject (futures : List FutureState) (fid : Nat) (e : ErrorV) :
    List FutureState :=
  settleFuture futures fid (.rejected e)

/-- Pending-request entry (client.ts lines 201-207): entry time, correlation
id, request kind, and the future to settle (by creation index). -/
structure PendingRequest where
  entryTime : Nat
  correlationId : String
  kind : String
  futureId : Nat

/-- State of a `HotOstrichChannel`: the pending-request table (client.ts
line 166) and the store of futures created by `promisify`. -/
structure HotOstrichState where
  pendingRequests : List PendingRequest
  futures : List FutureState

/-- Initial `HotOstrichChannel` state: no pending requests, no futures. -/
def HotOstrichChannel.initialState : HotOstrichState :=
  { pendingRequests := [], futures := [] }

/-- Steps taken by `promisify`, in execution order, that touch the bus or
the pending-request table. -/
inductive PromisifyAction where
  | sendRequest (env : MessageEnvelope)
  | pushPending (p : PendingRequest)

/-- Result of `promisify`: the new channel state, the actions in the order
the source performs them, and the id of the future whose promise is
returned to the caller. -/
structure PromisifyResult where
  state : HotOstrichState
  actions : List PromisifyAction
  futureId : Nat

/-- Method `promisify` (client.ts lines 135-151): record the entry time,
draw a fresh correlation id, build the request message, send it, create a
Future, and push the pending-request entry. `Date.now()` and
`newCorrelationId()` (utils.ts, not under src/; the spec says it produces
unique opaque identifiers) are modelled as explicit arguments. The source
sends the message (line 146) before pushing the pending entry (line 149);
the action list records that order. -/
def HotOstrichChannel.promisify (providerId : String) (s : HotOstrichState)
    (kind : String) (requestPayload : Value) (entryTime : Nat)
    (correlationId : String) : PromisifyResult :=
  let message : Msg := .request kind correlationId requestPayload
  let env := Channel.mkSendEnvelope (HotOstrichChannel.config providerId) message
  let futureId := s.futures.length
  let pendingRequest : PendingRequest :=
    { entryTime := entryTime, correlationId := correlationId, kind := kind
      futureId := futureId }
  { state :=
      { pendingRequests := s.pendingRequests ++ [pendingRequest]
        futures := s.futures ++ [.unsettled] }
    actions := [.sendRequest env, .pushPending pendingRequest]
    futureId := futureId }

/-- Wire value of a HotOstrich response, used by the not-found error
message's `JSON.stringify(response)`. -/
def responseToValue (kind correlationId : String) (success : Bool)
    (payload : Value) : Value :=
  .obj [("type", .str "response"), ("kind", .str kind),
        ("correlation_id", .str correlationId), ("success", .bool success),
        ("payload", payload)]

/-- Error thrown by `onHotOstrichResponse` when no pending request matches
the response's correlation id (client.ts line 170). -/
def noMatchingRequestError (kind correlationId : String) (success : Bool)
    (payload : Value) : ErrorV :=
  ⟨"Received a response without finding a matching request.  Maybe it already timed out?  "
    ++ Value.stringify (responseToValue kind correlationId success payload)⟩

/-- Handler `onHotOstrichResponse` (client.ts lines 168-178): find the first
pending request whose correlation id equals the response's; throw the
not-found error when there is none; otherwise resolve the entry's future
with the payload on success, or reject it with an error built from the
failure payload. The entry is NOT removed from `pendingRequests`. -/
def HotOstrichChannel.onHotOstrichResponse (s : HotOstrichState)
    (kind correlationId : String) (success : Bool) (payload : Value) :
    Except Thrown (HotOstrichState × List Effect) :=
  match s.pendingRequests.find? (fun p => p.correlationId == correlationId) with
  | none => .error (.err (noMatchingRequestError kind correlationId success payload))
  | some pendingRequest =>
    if success then
      .ok ({ s with futures := Future.resolve s.futures pendingRequest.futureId payload }, [])
    else
      .ok ({ s with
              futures := Future.reject s.futures pendingRequest.futureId
                ⟨"Failure response from provider.  " ++ Value.stringify payload⟩ }, [])

/-- Handler `onHotOstrichNotification`/`onSignerAddressChanged` (client.ts
lines 180-190): a `signer_address_changed` notification calls the
caller-supplied callback with the payload's address; any other kind reaches
`assertNever` and throws. -/
def HotOstrichChannel.onHotOstrichNotification (s : HotOstrichState)
    (kind : String) (payload : Value) :
    Except Thrown (HotOstrichState × List Effect) :=
  if kind == "signer_address_changed" then
    .ok (s, [.onSignerAddressChanged (payload.getField "address")])
  else .error (assertNever "notification.kind")

/-- Handler `onProviderMessage` of `HotOstrichChannel` (client.ts lines
158-164): dispatch by message type to the response or notification handler;
any other type reaches `assertNever` and throws. -/
def HotOstrichChannel.onProviderMessage (m : Msg) (s : HotOstrichState) :
    Except Thrown (HotOstrichState × List Effect) :=
  match m with
  | .response kind correlationId success payload =>
    HotOstrichChannel.onHotOstrichResponse s kind correlationId success payload
  | .notification kind payload =>
    HotOstrichChannel.onHotOstrichNotification s kind payload
  | _ => .error (assertNever "message")

/-- Delivery of one bus event to a `HotOstrichChannel` instance for the
given provider id. -/
def HotOstrichChannel.deliver (providerId : String)
    (onError : ErrorV → Except Thrown Unit)
    (c : ChannelInstance HotOstrichState) (event : EventData) :
    Except Thrown (ChannelInstance HotOstrichState × List Effect) :=
  Channel.deliver (HotOstrichChannel.config providerId)
    HotOstrichChannel.onProviderMessage onError c event

/-- Caller-supplied `onError` handler that never itself throws; recorded in
the effect list by `Channel.onMessage` when invoked. -/
def okOnError : ErrorV → Except Thrown Unit := fun _ => .ok ()

/-- Caller-supplied `onError` handler that itself throws when invoked. -/
def throwingOnError : ErrorV → Except Thrown Unit :=
  fun _ => .error (.str "onError itself threw")

/-- Concrete provider id used by witness scenarios. -/
def sampleProviderId : String := "provider1"

/-- Concrete address payload used by witness scenarios. -/
def sampleAddress : Value := .bytes [1, 2, 3]

/-- Concrete successful `get_signer_address` response with correlation id
"X", used by witness scenarios. -/
def sampleResponseMsg : Msg := .response "get_signer_address" "X" true sampleAddress

/-- The `sampleResponseMsg` wrapped in the provider-to-client HotOstrich
envelope for `sampleProviderId`. -/
def sampleResponseEvent : EventData :=
  .envelope
    { channel := HotOstrich.providerChannelStem ++ sampleProviderId
      kind := HotOstrich.kind
      message := sampleResponseMsg }

/-- Test of a promisify action: is it the pending-table insertion? -/
def isPushPendingAction : PromisifyAction → Bool
  | .pushPending _ => true
  | _ => false

/-- Test of a promisify action: is it the bus send of the request? -/
def isSendRequestAction : PromisifyAction → Bool
  | .sendRequest _ => true
  | _ => false

/-- Whether, in a promisify action trace, the pending-table insertion occurs
strictly before the send of the request envelope. -/
def pendingInsertedStrictlyBeforeSend (acts : List PromisifyAction) : Bool :=
  acts.findIdx isPushPendingAction < acts.findIdx isSendRequestAction

/-- Concrete HotOstrich state with one in-flight `sign_message` request of
correlation id "X" and its unsettled future, used by witness scenarios. -/
def C6state : HotOstrichState :=
  { pendingRequests := [⟨0, "X", "sign_message", 0⟩], futures := [.unsettled] }

/-- Concrete provider directory already holding an announcement for
`provider1`, used by witness scenarios. -/
def C7directory : HandshakeState :=
  [("provider1", .obj [("provider_id", .str "provider1"), ("name", .str "old")])]

/-- Concrete fresh announcement payload for the already-known `provider1`,
used by witness scenarios. -/
def C7announcement : Value :=
  .obj [("provider_id", .str "provider1"), ("name", .str "new")]

-- Claim theorems below: one theorem per claim of the specification,
-- preceded by the helper lemmas they share.

/-- Lookup after a JS Record assignment at the assigned key yields the new
value. -/
theorem Record.get?_set_self (r : List (String × Value)) (k : String) (v : Value) :
    Record.get? (Record.set r k v) k = some v := by
  induction r with
  | nil => simp [Record.set, Record.get?]
  | cons hd tl ih =>
    obtain ⟨k', v'⟩ := hd
    by_cases h : (k' == k) = true
    · simp [Record.set, h, Record.get?]
    · simp only [Record.set, h]
      simp [Record.get?, h, ih]

/-- Lookup after a JS Record assignment at any other key is unchanged. -/
theorem Record.get?_set_ne (r : List (String × Value)) (k k2 : String) (v : Value)
    (h : k2 ≠ k) : Record.get? (Record.set r k v) k2 = Record.get? r k2 := by
  have hk2 : (k == k2) = false := beq_eq_false_iff_ne.mpr (Ne.symm h)
  induction r with
  | nil => simp [Record.set, Record.get?, hk2]
  | cons hd tl ih =>
    obtain ⟨k', v'⟩ := hd
    by_cases hk : (k' == k) = true
    · have hkk : k' = k := by simpa using hk
      simp [Record.set, hk, Record.get?, hk2, hkk]
    · simp only [Record.set, hk, if_false]
      by_cases hx : (k' == k2) = true
      · simp [Record.get?, hx]
      · simp [Record.get?, hx, ih]

/-- C3 counterexample: the claim — that every delivery whose payload is not
an envelope-shaped object leaves both handlers uninvoked and raises no
error — is false at the concrete input `data = null`: because
`typeof null === 'object'`, line 197's `'ethereum' in event.data` throws a
TypeError, which the catch block routes to `onError`, so `onError` IS
invoked (the effect list is not empty) for a payload that is not an
envelope-shaped object. -/
theorem C3_counterexample :
    HotOstrichChannel.deliver sampleProviderId okOnError
      ⟨true, HotOstrichChannel.initialState⟩ EventData.nullData
      = .ok (⟨true, HotOstrichChannel.initialState⟩,
          [.onErrorCall (normalizeThrown typeErrorInNull)]) ∧
    ([.onErrorCall (normalizeThrown typeErrorInNull)] : List Effect) ≠ [] :=
  ⟨rfl, by simp⟩

/-- C3 amended: a bus event whose payload is of non-object type, an object
without an `ethereum` key, or an object whose `ethereum` field is of
non-object type, and any envelope whose channel differs from the instance's
provider-facing channel name, whose kind differs from the protocol kind, or
whose (non-null) inner message type is not provider-originated, is silently
ignored: the listener returns with the state unchanged, invokes neither the
subclass `onProviderMessage` handler (the result holds for every handler)
nor `onError`, and raises nothing. The remaining non-envelope payloads are
NOT silent: for null data, for a null `ethereum` field, and for a
channel-and-kind-matching envelope whose message is null, the dispatch
raises a TypeError that is caught and routed to `onError`, with no
exception escaping. -/
theorem C3_amended_nonmatching_events {σ : Type} (cfg : ChannelConfig)
    (onProviderMessage : Msg → σ → Except Thrown (σ × List Effect))
    (onError : ErrorV → Except Thrown Unit) (s : σ) (event : EventData)
    (h : (∃ raw, event = EventData.nonObjectData raw) ∨
      (∃ raw, event = EventData.objWithoutEthereum raw) ∨
      (∃ raw, event = EventData.nonObjectEthereum raw) ∨
      (∃ ch k, event = EventData.envelopeNullMessage ch k ∧
        (ch ≠ cfg.providerChannelName ∨ k ≠ cfg.kind)) ∨
      ∃ env, event = EventData.envelope env ∧
        (env.channel ≠ cfg.providerChannelName ∨ env.kind ≠ cfg.kind ∨
         isProviderMessage env.message = false)) :
    Channel.onMessage cfg onProviderMessage onError s event = .ok (s, []) ∧
    Channel.onMessage cfg onProviderMessage okOnError s EventData.nullData
      = .ok (s, [.onErrorCall (normalizeThrown typeErrorInNull)]) ∧
    Channel.onMessage cfg onProviderMessage okOnError s EventData.nullEthereum
      = .ok (s, [.onErrorCall (normalizeThrown typeErrorChannelOfNull)]) ∧
    Channel.onMessage cfg onProviderMessage okOnError s
        (EventData.envelopeNullMessage cfg.providerChannelName cfg.kind)
      = .ok (s, [.onErrorCall (normalizeThrown typeErrorTypeOfNull)]) := by
  refine ⟨?_, rfl, rfl, ?_⟩
  · have hf : Channel.filterEvent cfg event = .ok none := by
      rcases h with ⟨raw, rfl⟩ | ⟨raw, rfl⟩ | ⟨raw, rfl⟩ | ⟨ch, k, rfl, h⟩ | ⟨env, rfl, h⟩
      · rfl
      · rfl
      · rfl
      · unfold Channel.filterEvent isEthereumMessageEvent
        rcases h with h | h
        · simp [bne_iff_ne, h]
        · simp [bne_iff_ne, h]
      · unfold Channel.filterEvent isEthereumMessageEvent
        rcases h with h | h | h
        · simp [bne_iff_ne, h]
        · simp [bne_iff_ne, h]
        · simp [h]
    unfold Channel.onMessage
    rw [hf]
  · unfold Channel.onMessage Channel.filterEvent isEthereumMessageEvent
    simp [okOnError]

/-- Witness for C3's amended claim at a concrete input: an envelope of the
right channel but wrong protocol kind, delivered to a HotOstrich channel
with the real handler, is ignored, while the three null-payload classes go
to `onError`. -/
theorem C3_amended_witness :
    (Channel.onMessage (HotOstrichChannel.config sampleProviderId)
      HotOstrichChannel.onProviderMessage okOnError HotOstrichChannel.initialState
      (.envelope
        { channel := HotOstrich.providerChannelStem ++ sampleProviderId
          kind := Handshake.kind
          message := sampleResponseMsg })
      = .ok (HotOstrichChannel.initialState, [])) ∧
    Channel.onMessage (HotOstrichChannel.config sampleProviderId)
      HotOstrichChannel.onProviderMessage okOnError HotOstrichChannel.initialState
      EventData.nullData
      = .ok (HotOstrichChannel.initialState,
          [.onErrorCall (normalizeThrown typeErrorInNull)]) ∧
    Channel.onMessage (HotOstrichChannel.config sampleProviderId)
      HotOstrichChannel.onProviderMessage okOnError HotOstrichChannel.initialState
      EventData.nullEthereum
      = .ok (HotOstrichChannel.initialState,
          [.onErrorCall (normalizeThrown typeErrorChannelOfNull)]) ∧
    Channel.onMessage (HotOstrichChannel.config sampleProviderId)
      HotOstrichChannel.onProviderMessage okOnError HotOstrichChannel.initialState
      (EventData.envelopeNullMessage
        (HotOstrichChannel.config sampleProviderId).providerChannelName
        (HotOstrichChannel.config sampleProviderId).kind)
      = .ok (HotOstrichChannel.initialState,
          [.onErrorCall (normalizeThrown typeErrorTypeOfNull)]) :=
  C3_amended_nonmatching_events (HotOstrichChannel.config sampleProviderId)
    HotOstrichChannel.onProviderMessage okOnError HotOstrichChannel.initialState
    (.envelope
      { channel := HotOstrich.providerChannelStem ++ sampleProviderId
        kind := Handshake.kind
        message := sampleResponseMsg })
    (Or.inr (Or.inr (Or.inr (Or.inr ⟨_, rfl, Or.inr (Or.inl (by decide))⟩))))

/-- C4: every exception thrown while dispatching a matching envelope (here:
one thrown by the subclass handler, which covers the filter steps and the
handler body alike) is caught by the listener and converted to a call of the
instance's `onError` with the normalized Error — an Error passes through, a
thrown string becomes an Error with that string as message, any other
thrown value becomes an Error whose message is its JSON serialization — and
the listener returns normally instead of propagating the exception, provided
`onError` itself returns. -/
theorem C4_dispatch_exception_caught_and_normalized {σ : Type}
    (cfg : ChannelConfig)
    (onProviderMessage : Msg → σ → Except Thrown (σ × List Effect))
    (onError : ErrorV → Except Thrown Unit) (s : σ) (event : EventData)
    (t : Thrown)
    (hsrc : Channel.filterEvent cfg event = .error t ∨
      ∃ m, Channel.filterEvent cfg event = .ok (some m) ∧
        onProviderMessage m s = .error t)
    (he : onError (normalizeThrown t) = .ok ()) :
    Channel.onMessage cfg onProviderMessage onError s event
      = .ok (s, [.onErrorCall (normalizeThrown t)]) ∧
    (∀ e, normalizeThrown (.err e) = e) ∧
    (∀ s, normalizeThrown (.str s) = ⟨s⟩) ∧
    (∀ v, normalizeThrown (.other v) = ⟨Value.stringify v⟩) := by
  refine ⟨?_, fun _ => rfl, fun _ => rfl, fun _ => rfl⟩
  unfold Channel.onMessage
  rcases hsrc with hf | ⟨m, hf, hh⟩
  · simp only [hf, he]
  · simp only [hf, hh, he]

/-- Witness for C4 at a concrete input: a response with an unknown
correlation id makes the handler throw; the listener catches it and calls
`onError` with the (already-Error) normalized value. -/
theorem C4_witness :
    Channel.filterEvent (HotOstrichChannel.config sampleProviderId) sampleResponseEvent
      = .ok (some sampleResponseMsg) ∧
    HotOstrichChannel.onProviderMessage sampleResponseMsg HotOstrichChannel.initialState
      = .error (.err (noMatchingRequestError "get_signer_address" "X" true sampleAddress)) ∧
    okOnError (normalizeThrown
      (.err (noMatchingRequestError "get_signer_address" "X" true sampleAddress))) = .ok () ∧
    (Channel.onMessage (HotOstrichChannel.config sampleProviderId)
        HotOstrichChannel.onProviderMessage okOnError HotOstrichChannel.initialState
        sampleResponseEvent
      = .ok (HotOstrichChannel.initialState,
          [.onErrorCall (normalizeThrown
            (.err (noMatchingRequestError "get_signer_address" "X" true sampleAddress)))]) ∧
    (∀ e, normalizeThrown (.err e) = e) ∧
    (∀ s, normalizeThrown (.str s) = ⟨s⟩) ∧
    (∀ v, normalizeThrown (.other v) = ⟨Value.stringify v⟩)) :=
  ⟨rfl, rfl, rfl,
    C4_dispatch_exception_caught_and_normalized _ _ _ _ _ _
      (Or.inr ⟨sampleResponseMsg, rfl, rfl⟩) rfl⟩

/-- C10: when the caller-supplied `onError` itself throws upon being invoked
from the listener's catch block, that exception propagates uncaught out of
the listener (the dispatch returns `.error`): the catch-and-normalize
guarantee does not cover faults inside `onError`. -/
theorem C10_onError_exception_propagates {σ : Type} (cfg : ChannelConfig)
    (onProviderMessage : Msg → σ → Except Thrown (σ × List Effect))
    (onError : ErrorV → Except Thrown Unit) (s : σ) (event : EventData)
    (t t2 : Thrown)
    (hsrc : Channel.filterEvent cfg event = .error t ∨
      ∃ m, Channel.filterEvent cfg event = .ok (some m) ∧
        onProviderMessage m s = .error t)
    (he : onError (normalizeThrown t) = .error t2) :
    Channel.onMessage cfg onProviderMessage onError s event = .error t2 := by
  unfold Channel.onMessage
  rcases hsrc with hf | ⟨m, hf, hh⟩
  · simp only [hf, he]
  · simp only [hf, hh, he]

/-- Witness for C10 at a concrete input: with a throwing `onError`, the
exception escapes the listener. -/
theorem C10_witness :
    Channel.filterEvent (HotOstrichChannel.config sampleProviderId) sampleResponseEvent
      = .ok (some sampleResponseMsg) ∧
    HotOstrichChannel.onProviderMessage sampleResponseMsg HotOstrichChannel.initialState
      = .error (.err (noMatchingRequestError "get_signer_address" "X" true sampleAddress)) ∧
    throwingOnError (normalizeThrown
      (.err (noMatchingRequestError "get_signer_address" "X" true sampleAddress)))
      = .error (.str "onError itself threw") ∧
    Channel.onMessage (HotOstrichChannel.config sampleProviderId)
      HotOstrichChannel.onProviderMessage throwingOnError HotOstrichChannel.initialState
      sampleResponseEvent = .error (.str "onError itself threw") :=
  ⟨rfl, rfl, rfl,
    C10_onError_exception_propagates _ _ _ _ _ _ _
      (Or.inr ⟨sampleResponseMsg, rfl, rfl⟩) rfl⟩

/-- C9: `shutdown` deregisters the listener, so a subsequent bus event is
not dispatched at all (the instance and its state are returned unchanged and
no effect occurs); `shutdown` is idempotent; and it leaves the subclass
state — in particular the pending-request table and every future — exactly
as it was. -/
theorem C9_shutdown_inert_idempotent_state_preserving (providerId : String)
    (onError : ErrorV → Except Thrown Unit) (c : ChannelInstance HotOstrichState)
    (event : EventData) :
    (Channel.shutdown c).listenerRegistered = false ∧
    Channel.shutdown (Channel.shutdown c) = Channel.shutdown c ∧
    (Channel.shutdown c).state = c.state ∧
    HotOstrichChannel.deliver providerId onError (Channel.shutdown c) event
      = .ok (Channel.shutdown c, []) ∧
    (Channel.shutdown c).state.pendingRequests = c.state.pendingRequests ∧
    (Channel.shutdown c).state.futures = c.state.futures :=
  ⟨rfl, rfl, rfl, rfl, rfl, rfl⟩

/-- C5: a response whose correlation id matches no pending-request entry is
surfaced through `onError` — the handler raises the not-found error, the
listener catches it and calls `onError` with it — while the dispatch itself
returns normally: no uncaught exception escapes the dispatch path. -/
theorem C5_correlation_fault_surfaced_via_onError (providerId : String)
    (s : HotOstrichState) (kind correlationId : String) (success : Bool)
    (payload : Value)
    (hnone : s.pendingRequests.find? (fun p => p.correlationId == correlationId)
      = none) :
    HotOstrichChannel.deliver providerId okOnError ⟨true, s⟩
      (.envelope
        { channel := HotOstrich.providerChannelStem ++ providerId
          kind := HotOstrich.kind
          message := .response kind correlationId success payload })
      = .ok (⟨true, s⟩,
          [.onErrorCall (noMatchingRequestError kind correlationId success payload)]) := by
  unfold HotOstrichChannel.deliver Channel.deliver Channel.onMessage Channel.filterEvent
  simp [HotOstrichChannel.config, HotOstrichChannel.onProviderMessage,
    HotOstrichChannel.onHotOstrichResponse, hnone, okOnError, isProviderMessage, isEthereumMessageEvent,
    normalizeThrown, Except.map]

/-- Witness for C5 at a concrete input: the sample response delivered to a
channel with an empty pending table is routed to `onError`. -/
theorem C5_witness :
    HotOstrichChannel.initialState.pendingRequests.find?
      (fun p => p.correlationId == "X") = none ∧
    HotOstrichChannel.deliver sampleProviderId okOnError
      ⟨true, HotOstrichChannel.initialState⟩ sampleResponseEvent
      = .ok (⟨true, HotOstrichChannel.initialState⟩,
          [.onErrorCall (noMatchingRequestError "get_signer_address" "X" true sampleAddress)]) :=
  ⟨rfl, C5_correlation_fault_surfaced_via_onError sampleProviderId
    HotOstrichChannel.initialState "get_signer_address" "X" true sampleAddress rfl⟩

/-- C6: a failure response (`success` false) that matches a pending request
rejects exactly that request's future with an error built from the failure
payload: the future is not resolved, every other future is untouched, the
pending table is unchanged, and no `onError` call happens (the effect list
is empty) — the dispatch returns normally. -/
theorem C6_failure_response_rejects_only_matching_call (providerId : String)
    (s : HotOstrichState) (kind correlationId : String) (payload : Value)
    (p : PendingRequest)
    (hfind : s.pendingRequests.find? (fun q => q.correlationId == correlationId)
      = some p)
    (hunsettled : s.futures[p.futureId]? = some .unsettled) :
    ∃ s2 : HotOstrichState,
      HotOstrichChannel.deliver providerId okOnError ⟨true, s⟩
        (.envelope
          { channel := HotOstrich.providerChannelStem ++ providerId
            kind := HotOstrich.kind
            message := .response kind correlationId false payload })
        = .ok (⟨true, s2⟩, []) ∧
      s2.pendingRequests = s.pendingRequests ∧
      s2.futures[p.futureId]?
        = some (.rejected ⟨"Failure response from provider.  " ++ Value.stringify payload⟩) ∧
      (∀ j, j ≠ p.futureId → s2.futures[j]? = s.futures[j]?) ∧
      s2.futures.length = s.futures.length := by
  have hlt : p.futureId < s.futures.length := (List.getElem?_eq_some.mp hunsettled).1
  refine ⟨{ s with futures := Future.reject s.futures p.futureId (ErrorV.mk ("Failure response from provider.  " ++ Value.stringify payload)) }, ?_, rfl, ?_, ?_, ?_⟩
  · unfold HotOstrichChannel.deliver Channel.deliver Channel.onMessage Channel.filterEvent
    simp [HotOstrichChannel.config, HotOstrichChannel.onProviderMessage,
      HotOstrichChannel.onHotOstrichResponse, hfind, isProviderMessage, isEthereumMessageEvent, Except.map]
  · unfold Future.reject settleFuture
    rw [hunsettled]
    exact List.getElem?_set_eq_of_lt _ hlt
  · intro j hj
    unfold Future.reject settleFuture
    rw [hunsettled]
    exact List.getElem?_set_ne (Ne.symm hj)
  · unfold Future.reject settleFuture
    rw [hunsettled]
    simp

/-- Witness for C6 at a concrete input: a failure response for the one
in-flight request of `C6state` rejects its future. -/
theorem C6_witness :
    C6state.pendingRequests.find? (fun q => q.correlationId == "X")
      = some ⟨0, "X", "sign_message", 0⟩ ∧
    C6state.futures[(⟨0, "X", "sign_message", 0⟩ : PendingRequest).futureId]?
      = some .unsettled ∧
    (∃ s2 : HotOstrichState,
      HotOstrichChannel.deliver sampleProviderId okOnError ⟨true, C6state⟩
        (.envelope
          { channel := HotOstrich.providerChannelStem ++ sampleProviderId
            kind := HotOstrich.kind
            message := .response "sign_message" "X" false (.str "user denied") })
        = .ok (⟨true, s2⟩, []) ∧
      s2.pendingRequests = C6state.pendingRequests ∧
      s2.futures[(⟨0, "X", "sign_message", 0⟩ : PendingRequest).futureId]?
        = some (.rejected ⟨"Failure response from provider.  "
            ++ Value.stringify (.str "user denied")⟩) ∧
      (∀ j, j ≠ (⟨0, "X", "sign_message", 0⟩ : PendingRequest).futureId →
        s2.futures[j]? = C6state.futures[j]?) ∧
      s2.futures.length = C6state.futures.length) :=
  ⟨rfl, rfl, C6_failure_response_rejects_only_matching_call sampleProviderId C6state
    "sign_message" "X" (.str "user denied") ⟨0, "X", "sign_message", 0⟩ rfl rfl⟩

/-- C7: a `HandshakeChannel` sends the `client_announcement` broadcast on
construction; `reRequestProviders` sends the identical broadcast again and
leaves the provider directory (indeed the whole state) unmodified; and a
`provider_announcement` notification for an already-known provider id
overwrites exactly that id's stored payload, leaves every other directory
entry unchanged, and invokes the `onProviderAnnounced` callback. -/
theorem C7_handshake_broadcasts_and_directory_upsert (s : HandshakeState)
    (payload : Value) (pid : String)
    (hpid : payload.getStr? "provider_id" = some pid)
    (hknown : (Record.get? s pid).isSome = true) :
    HandshakeChannel.construct
      = (⟨true, ([] : HandshakeState)⟩,
        [.send (Channel.mkSendEnvelope HandshakeChannel.config
          (.broadcast "client_announcement" (.obj [])))]) ∧
    HandshakeChannel.reRequestProviders s
      = (s, [.send (Channel.mkSendEnvelope HandshakeChannel.config
          (.broadcast "client_announcement" (.obj [])))]) ∧
    ∃ s2 : HandshakeState,
      HandshakeChannel.deliver okOnError ⟨true, s⟩
        (.envelope
          { channel := Handshake.providerChannelName
            kind := Handshake.kind
            message := .notification "provider_announcement" payload })
        = .ok (⟨true, s2⟩, [.onProviderAnnounced payload]) ∧
      Record.get? s2 pid = some payload ∧
      (∀ k, k ≠ pid → Record.get? s2 k = Record.get? s k) := by
  refine ⟨rfl, rfl, Record.set s pid payload, ?_, ?_, ?_⟩
  · unfold HandshakeChannel.deliver Channel.deliver Channel.onMessage Channel.filterEvent
    simp [HandshakeChannel.config, HandshakeChannel.onProviderMessage,
      HandshakeChannel.onProviderAnnouncement, hpid, isProviderMessage, isEthereumMessageEvent, Except.map]
  · exact Record.get?_set_self s pid payload
  · intro k hk
    exact Record.get?_set_ne s pid k payload hk

/-- Witness for C7 at a concrete input: a new announcement for the
already-known `provider1` of `C7directory`. -/
theorem C7_witness :
    C7announcement.getStr? "provider_id" = some "provider1" ∧
    (Record.get? C7directory "provider1").isSome = true ∧
    (HandshakeChannel.construct
      = (⟨true, ([] : HandshakeState)⟩,
        [.send (Channel.mkSendEnvelope HandshakeChannel.config
          (.broadcast "client_announcement" (.obj [])))]) ∧
    HandshakeChannel.reRequestProviders C7directory
      = (C7directory, [.send (Channel.mkSendEnvelope HandshakeChannel.config
          (.broadcast "client_announcement" (.obj [])))]) ∧
    ∃ s2 : HandshakeState,
      HandshakeChannel.deliver okOnError ⟨true, C7directory⟩
        (.envelope
          { channel := Handshake.providerChannelName
            kind := Handshake.kind
            message := .notification "provider_announcement" C7announcement })
        = .ok (⟨true, s2⟩, [.onProviderAnnounced C7announcement]) ∧
      Record.get? s2 "provider1" = some C7announcement ∧
      (∀ k, k ≠ "provider1" → Record.get? s2 k = Record.get? C7directory k)) :=
  ⟨rfl, rfl,
    C7_handshake_broadcasts_and_directory_upsert C7directory C7announcement
      "provider1" rfl rfl⟩

/-- C2 counterexample: in the action trace of a concrete `promisify` call
the send of the request envelope comes first (index 0) and the
pending-table insertion second (index 1) — client.ts sends on line 146 and
pushes on line 149 — so the entry is NOT inserted strictly before the
request is sent on the bus, refuting the claim as stated. -/
theorem C2_counterexample :
    (HotOstrichChannel.promisify "provider1" HotOstrichChannel.initialState
      "get_capabilities" (.obj []) 0 "cid0").actions.findIdx isSendRequestAction = 0 ∧
    (HotOstrichChannel.promisify "provider1" HotOstrichChannel.initialState
      "get_capabilities" (.obj []) 0 "cid0").actions.findIdx isPushPendingAction = 1 ∧
    pendingInsertedStrictlyBeforeSend
      (HotOstrichChannel.promisify "provider1" HotOstrichChannel.initialState
        "get_capabilities" (.obj []) 0 "cid0").actions = false :=
  ⟨rfl, rfl, rfl⟩

/-- C2 amended: `promisify` sends the request envelope first and inserts the
pending-request entry immediately after, both within the same synchronous
call: its action trace is exactly send-then-insert, the state it returns
already contains the entry, and a matching response dispatched on that
returned state (the earliest a bus event can be dispatched) finds the entry
and settles the new future. -/
theorem C2_amended_insert_after_send_within_call (providerId : String)
    (s : HotOstrichState) (kind : String) (payload rpl : Value)
    (entryTime : Nat) (cid : String)
    (hfresh : ∀ q ∈ s.pendingRequests, q.correlationId ≠ cid) :
    (∃ env p,
      (HotOstrichChannel.promisify providerId s kind payload entryTime cid).actions
        = [.sendRequest env, .pushPending p] ∧
      p.correlationId = cid ∧
      (HotOstrichChannel.promisify providerId s kind payload entryTime cid).state.pendingRequests
        = s.pendingRequests ++ [p]) ∧
    ∃ s2 : HotOstrichState,
      HotOstrichChannel.deliver providerId okOnError
        ⟨true, (HotOstrichChannel.promisify providerId s kind payload entryTime cid).state⟩
        (.envelope
          { channel := HotOstrich.providerChannelStem ++ providerId
            kind := HotOstrich.kind
            message := .response kind cid true rpl })
        = .ok (⟨true, s2⟩, []) ∧
      s2.futures[(HotOstrichChannel.promisify providerId s kind payload entryTime cid).futureId]?
        = some (.resolved rpl) := by
  have hpre : s.pendingRequests.find? (fun q => q.correlationId == cid) = none := by
    rw [List.find?_eq_none]
    intro q hq
    simp [hfresh q hq]
  have hfind2 : (s.pendingRequests ++ [(⟨entryTime, cid, kind, s.futures.length⟩ : PendingRequest)]).find?
      (fun q => q.correlationId == cid) = some ⟨entryTime, cid, kind, s.futures.length⟩ := by
    rw [List.find?_append, hpre]
    simp [List.find?]
  have hset : settleFuture (s.futures ++ [FutureState.unsettled]) s.futures.length (FutureState.resolved rpl)
      = (s.futures ++ [FutureState.unsettled]).set s.futures.length (FutureState.resolved rpl) := by
    unfold settleFuture
    rw [List.getElem?_concat_length]
  refine ⟨⟨_, _, rfl, rfl, rfl⟩,
    ⟨{ pendingRequests := s.pendingRequests ++ [⟨entryTime, cid, kind, s.futures.length⟩]
       futures := (s.futures ++ [FutureState.unsettled]).set s.futures.length (FutureState.resolved rpl) },
     ?_, ?_⟩⟩
  · unfold HotOstrichChannel.deliver Channel.deliver Channel.onMessage Channel.filterEvent
    simp [HotOstrichChannel.config, HotOstrichChannel.onProviderMessage,
      HotOstrichChannel.onHotOstrichResponse, HotOstrichChannel.promisify,
      hfind2, isProviderMessage, isEthereumMessageEvent, Future.resolve, hset, Except.map]
  · simp only [HotOstrichChannel.promisify]
    exact List.getElem?_set_eq_of_lt _ (by simp)

/-- Witness for C2's amended claim at a concrete input: a first call on a
fresh channel. -/
theorem C2_amended_witness :
    (∀ q ∈ HotOstrichChannel.initialState.pendingRequests, q.correlationId ≠ "cid1") ∧
    ((∃ env p,
      (HotOstrichChannel.promisify "provider1" HotOstrichChannel.initialState
        "sign_message" (.str "m") 5 "cid1").actions
        = [.sendRequest env, .pushPending p] ∧
      p.correlationId = "cid1" ∧
      (HotOstrichChannel.promisify "provider1" HotOstrichChannel.initialState
        "sign_message" (.str "m") 5 "cid1").state.pendingRequests
        = HotOstrichChannel.initialState.pendingRequests ++ [p]) ∧
    ∃ s2 : HotOstrichState,
      HotOstrichChannel.deliver "provider1" okOnError
        ⟨true, (HotOstrichChannel.promisify "provider1" HotOstrichChannel.initialState
          "sign_message" (.str "m") 5 "cid1").state⟩
        (.envelope
          { channel := HotOstrich.providerChannelStem ++ "provider1"
            kind := HotOstrich.kind
            message := .response "sign_message" "cid1" true (.bytes [9]) })
        = .ok (⟨true, s2⟩, []) ∧
      s2.futures[(HotOstrichChannel.promisify "provider1" HotOstrichChannel.initialState
        "sign_message" (.str "m") 5 "cid1").futureId]? = some (.resolved (.bytes [9]))) :=
  ⟨fun q hq => absurd hq (List.not_mem_nil q),
    C2_amended_insert_after_send_within_call "provider1" HotOstrichChannel.initialState
      "sign_message" (.str "m") (.bytes [9]) 5 "cid1"
      (fun q hq => absurd hq (List.not_mem_nil q))⟩

/-- C8: two calls issued before either response arrives settle independently
by correlation id, regardless of response delivery order: after issuing call
A (correlation id `cidA`) and then call B (`cidB`), delivering B's response
first and then A's resolves B's future with B's payload and A's future with
A's payload. -/
theorem C8_out_of_order_responses_settle_by_correlation_id (providerId : String)
    (kindA kindB : String) (plA plB rplA rplB : Value) (cidA cidB : String)
    (tA tB : Nat) (hne : cidA ≠ cidB) :
    ∃ s3 s4 : HotOstrichState,
      HotOstrichChannel.deliver providerId okOnError
        ⟨true, (HotOstrichChannel.promisify providerId
          (HotOstrichChannel.promisify providerId HotOstrichChannel.initialState
            kindA plA tA cidA).state kindB plB tB cidB).state⟩
        (.envelope
          { channel := HotOstrich.providerChannelStem ++ providerId
            kind := HotOstrich.kind
            message := .response kindB cidB true rplB })
        = .ok (⟨true, s3⟩, []) ∧
      HotOstrichChannel.deliver providerId okOnError ⟨true, s3⟩
        (.envelope
          { channel := HotOstrich.providerChannelStem ++ providerId
            kind := HotOstrich.kind
            message := .response kindA cidA true rplA })
        = .ok (⟨true, s4⟩, []) ∧
      s4.futures[(HotOstrichChannel.promisify providerId HotOstrichChannel.initialState
          kindA plA tA cidA).futureId]? = some (.resolved rplA) ∧
      s4.futures[(HotOstrichChannel.promisify providerId
          (HotOstrichChannel.promisify providerId HotOstrichChannel.initialState
            kindA plA tA cidA).state kindB plB tB cidB).futureId]?
        = some (.resolved rplB) := by
  have hAB : (cidA == cidB) = false := beq_eq_false_iff_ne.mpr hne
  refine ⟨{ pendingRequests := [⟨tA, cidA, kindA, 0⟩, ⟨tB, cidB, kindB, 1⟩]
            futures := [FutureState.unsettled, FutureState.resolved rplB] },
    { pendingRequests := [⟨tA, cidA, kindA, 0⟩, ⟨tB, cidB, kindB, 1⟩]
      futures := [FutureState.resolved rplA, FutureState.resolved rplB] },
    ?_, ?_, rfl, rfl⟩
  · unfold HotOstrichChannel.deliver Channel.deliver Channel.onMessage Channel.filterEvent
    simp [HotOstrichChannel.config, HotOstrichChannel.onProviderMessage,
      HotOstrichChannel.onHotOstrichResponse, HotOstrichChannel.promisify,
      HotOstrichChannel.initialState, isProviderMessage, isEthereumMessageEvent, List.find?, hAB,
      Future.resolve, settleFuture, Except.map]
  · unfold HotOstrichChannel.deliver Channel.deliver Channel.onMessage Channel.filterEvent
    simp [HotOstrichChannel.config, HotOstrichChannel.onProviderMessage,
      HotOstrichChannel.onHotOstrichResponse, isProviderMessage, isEthereumMessageEvent, List.find?,
      Future.resolve, settleFuture, Except.map]

/-- Witness for C8 at a concrete input: calls with correlation ids "A" and
"B", responses delivered in the order B then A. -/
theorem C8_witness :
    ("A" : String) ≠ "B" ∧
    (∃ s3 s4 : HotOstrichState,
      HotOstrichChannel.deliver "provider1" okOnError
        ⟨true, (HotOstrichChannel.promisify "provider1"
          (HotOstrichChannel.promisify "provider1" HotOstrichChannel.initialState
            "get_capabilities" (.obj []) 1 "A").state "sign_message" (.str "m") 2 "B").state⟩
        (.envelope
          { channel := HotOstrich.providerChannelStem ++ "provider1"
            kind := HotOstrich.kind
            message := .response "sign_message" "B" true (.str "sigB") })
        = .ok (⟨true, s3⟩, []) ∧
      HotOstrichChannel.deliver "provider1" okOnError ⟨true, s3⟩
        (.envelope
          { channel := HotOstrich.providerChannelStem ++ "provider1"
            kind := HotOstrich.kind
            message := .response "get_capabilities" "A" true (.arr [.str "sign"]) })
        = .ok (⟨true, s4⟩, []) ∧
      s4.futures[(HotOstrichChannel.promisify "provider1" HotOstrichChannel.initialState
          "get_capabilities" (.obj []) 1 "A").futureId]? = some (.resolved (.arr [.str "sign"])) ∧
      s4.futures[(HotOstrichChannel.promisify "provider1"
          (HotOstrichChannel.promisify "provider1" HotOstrichChannel.initialState
            "get_capabilities" (.obj []) 1 "A").state "sign_message" (.str "m") 2 "B").futureId]?
        = some (.resolved (.str "sigB"))) :=
  ⟨by decide,
    C8_out_of_order_responses_settle_by_correlation_id "provider1"
      "get_capabilities" "sign_message" (.obj []) (.str "m")
      (.arr [.str "sign"]) (.str "sigB") "A" "B" 1 2 (by decide)⟩

/-- C1 (the claim fails on the code): after the matching response for
correlation id "X" has been received and its future resolved, the entry is
STILL tracked in the pending-request table (client.ts never removes it), and
a second delivery of the very same response again finds the entry and takes
the found branch — the dispatch returns normally with no effect, in
particular without raising the "no matching request found" error and without
any `onError` call — instead of hitting the "not found" branch as the claim
requires. -/
theorem C1_duplicate_response_not_detected :
    ∃ s2 : HotOstrichState,
      HotOstrichChannel.deliver sampleProviderId okOnError
        ⟨true, (HotOstrichChannel.promisify sampleProviderId
          HotOstrichChannel.initialState "get_signer_address" (.obj []) 0 "X").state⟩
        sampleResponseEvent
        = .ok (⟨true, s2⟩, []) ∧
      (s2.pendingRequests.any fun p => p.correlationId == "X") = true ∧
      HotOstrichChannel.deliver sampleProviderId okOnError ⟨true, s2⟩
        sampleResponseEvent
        = .ok (⟨true, s2⟩, []) :=
  ⟨{ pendingRequests := [⟨0, "X", "get_signer_address", 0⟩]
     futures := [FutureState.resolved sampleAddress] },
   by rfl, by rfl, by rfl⟩
